import Mathlib

/-!
Shallow embedding of `src/transaction_orchestrator.py`.

The Python class `TransactionOrchestrator` holds a mutable resource pool
(`Dict[str, int]`) and a history list.  Its coroutine
`execute_secure_transfer(asset_id, amount, metadata)` validates the asset,
rejects when the balance is insufficient, otherwise debits the pool entry and
returns a response dictionary.  We model the heterogeneous Python response
dictionaries by the inductive `PyValue`, the pool by an association list with
Python-dict lookup/update semantics, and the two nondeterministic environment
reads (`uuid.uuid4()` and `datetime.now().isoformat()`) as oracle arguments
`tx_id` and `now`.  The coroutine never suspends around shared state other
than the single `asyncio.sleep`, so a sequential call is modelled by a pure
state-passing function.
-/

/-- Values appearing in the Python response dictionaries (the fragment of
`Dict[str, Any]` that the source actually builds: strings, integers and
nested dictionaries). -/
inductive PyValue : Type where
  | str : String → PyValue
  | int : Int → PyValue
  | dict : List (String × PyValue) → PyValue

/-- Reading a key of a Python dictionary modelled as an association list
(keys of a real `dict` are unique, so first match is the exact semantics). -/
def lookupKey : List (String × PyValue) → String → Option PyValue
  | [], _ => none
  | (k, v) :: rest, key => if key = k then some v else lookupKey rest key

/-- Membership test and read `pool[asset_id]` of the `Dict[str, int]` pool. -/
def pfind : List (String × Int) → String → Option Int
  | [], _ => none
  | (k, v) :: rest, key => if key = k then some v else pfind rest key

/-- Assignment `pool[asset_id] = n` to an existing key of the pool: the
matched entry is overwritten, every other entry is kept. -/
def pset : List (String × Int) → String → Int → List (String × Int)
  | [], _, _ => []
  | (k, v) :: rest, key, n =>
      if key = k then (k, n) :: rest else (k, v) :: pset rest key n

/-- State of a `TransactionOrchestrator` object: the private resource pool
and the history list created in `__init__`. -/
structure TransactionOrchestrator : Type where
  _pool : List (String × Int)
  _history : List PyValue

/-- Constructor `__init__(resource_pool)`: keep the pool, start with an
empty history. -/
def TransactionOrchestrator.init (resource_pool : List (String × Int)) :
    TransactionOrchestrator :=
  { _pool := resource_pool, _history := [] }

/-- Helper method `_format_response(tx_id, status, detail)`. -/
def _format_response (tx_id status : String) (detail : PyValue) : PyValue :=
  PyValue.dict
    [("tx_hash", PyValue.str tx_id),
     ("status", PyValue.str status),
     ("payload", detail)]

/-- Method `execute_secure_transfer(asset_id, amount, metadata)`.

The two environment reads are passed in: `tx_id` stands for
`str(uuid.uuid4())` and `now` for `datetime.now().isoformat()`.  The `match`
on `pfind` embeds the `asset_id not in self._pool` check: the `none` branch
is the `raise KeyError` that the blanket `except Exception` turns into the
`CRITICAL_FAILURE` dictionary (nothing in the `try` block raises anywhere
else, and no pool mutation precedes the raise).  The guard mirrors
`can_proceed = current_balance >= amount; if not can_proceed: ...`, and on
success `balance_after` re-reads the updated pool entry exactly as
`self._pool[asset_id]` does after the decrement. -/
def execute_secure_transfer (s : TransactionOrchestrator) (tx_id now : String)
    (asset_id : String) (amount : Int)
    (metadata : Option (List (String × PyValue))) :
    PyValue × TransactionOrchestrator :=
  match pfind s._pool asset_id with
  | none =>
      (PyValue.dict
        [("status", PyValue.str "CRITICAL_FAILURE"),
         ("trace", PyValue.str tx_id)], s)
  | some current_balance =>
      if current_balance < amount then
        (_format_response tx_id "REJECTED" (PyValue.str "자원 부족"), s)
      else
        let pool' := pset s._pool asset_id (current_balance - amount)
        (_format_response tx_id "COMMITTED"
          (PyValue.dict
            [("balance_after", PyValue.int ((pfind pool' asset_id).getD 0)),
             ("processed_at", PyValue.str now),
             ("meta", PyValue.dict (metadata.getD []))]),
         { s with _pool := pool' })

/-- One submission to the orchestrator, bundling the oracle values with the
call arguments, used to state properties of sequential runs. -/
structure Request : Type where
  tx_id : String
  now : String
  asset_id : String
  amount : Int
  metadata : Option (List (String × PyValue))

/-- Sequential run: execute a list of transfers one after the other,
threading the orchestrator state. -/
def runTransfers (s : TransactionOrchestrator) : List Request → TransactionOrchestrator
  | [] => s
  | r :: rs =>
      runTransfers
        (execute_secure_transfer s r.tx_id r.now r.asset_id r.amount r.metadata).2 rs

/-- Field of a response dictionary. -/
def getField (v : PyValue) (key : String) : Option PyValue :=
  match v with
  | PyValue.dict kvs => lookupKey kvs key
  | _ => none

/-- String stored under a key of a response dictionary. -/
def getStr (v : PyValue) (key : String) : Option String :=
  match getField v key with
  | some (PyValue.str s) => some s
  | _ => none

/-- Integer stored under a key of a response dictionary. -/
def getInt (v : PyValue) (key : String) : Option Int :=
  match getField v key with
  | some (PyValue.int n) => some n
  | _ => none

/-- Status field of a response. -/
def statusOf (v : PyValue) : Option String := getStr v "status"

/-- Balance reported in the payload of a COMMITTED response. -/
def balanceAfterOf (v : PyValue) : Option Int :=
  match getField v "payload" with
  | some p => getInt p "balance_after"
  | none => none

/-- Timestamp reported in the payload of a COMMITTED response. -/
def processedAtOf (v : PyValue) : Option String :=
  match getField v "payload" with
  | some p => getStr p "processed_at"
  | none => none

/-- Payload of a response when it is a bare string (the REJECTED branch). -/
def payloadStrOf (v : PyValue) : Option String :=
  match getField v "payload" with
  | some (PyValue.str s) => some s
  | _ => none

/-- Every balance of the pool is non-negative. -/
def nonneg (pool : List (String × Int)) : Prop := ∀ kv ∈ pool, 0 ≤ kv.2

instance (pool : List (String × Int)) : Decidable (nonneg pool) :=
  inferInstanceAs (Decidable (∀ kv ∈ pool, 0 ≤ kv.2))

/-! ## Lemmas about the pool operations -/

theorem pfind_mem {l : List (String × Int)} {k : String} {v : Int}
    (h : pfind l k = some v) : (k, v) ∈ l := by
  induction l with
  | nil => simp [pfind] at h
  | cons kv rest ih =>
    rw [pfind] at h
    split at h
    · rename_i heq
      cases h
      simp [heq]
    · exact List.mem_cons_of_mem _ (ih h)

theorem pfind_pset_self {l : List (String × Int)} {k : String} {v : Int}
    (n : Int) (h : pfind l k = some v) : pfind (pset l k n) k = some n := by
  induction l with
  | nil => simp [pfind] at h
  | cons kv rest ih =>
    rw [pfind] at h
    rw [pset]
    split at h
    · rename_i heq
      simp only [if_pos heq, pfind, if_pos heq]
    · rename_i hne
      simp only [if_neg hne, pfind, if_neg hne]
      exact ih h

theorem pfind_pset_ne (l : List (String × Int)) {k j : String} (n : Int)
    (h : j ≠ k) : pfind (pset l k n) j = pfind l j := by
  induction l with
  | nil => rfl
  | cons kv rest ih =>
    rw [pset]
    by_cases hk : k = kv.1
    · cases kv
      simp only at hk
      rw [if_pos hk, pfind, pfind]
      rw [hk] at h
      rw [if_neg h, if_neg h]
    · cases kv
      simp only at hk
      rw [if_neg hk, pfind, pfind]
      split
      · rfl
      · exact ih

theorem mem_pset {l : List (String × Int)} {k : String} {n : Int}
    {kv : String × Int} (h : kv ∈ pset l k n) : kv.2 = n ∨ kv ∈ l := by
  induction l with
  | nil => simp [pset] at h
  | cons hd rest ih =>
    rw [pset] at h
    split at h
    · rcases List.mem_cons.mp h with h1 | h1
      · left; rw [h1]
      · right; exact List.mem_cons_of_mem _ h1
    · rcases List.mem_cons.mp h with h1 | h1
      · right; rw [h1]; exact List.mem_cons_self _ _
      · rcases ih h1 with h2 | h2
        · left; exact h2
        · right; exact List.mem_cons_of_mem _ h2

/-! ## Reduction lemmas for the response accessors -/

@[simp] theorem statusOf_format (tx st : String) (d : PyValue) :
    statusOf (_format_response tx st d) = some st := rfl

@[simp] theorem payloadStrOf_format (tx st p : String) :
    payloadStrOf (_format_response tx st (PyValue.str p)) = some p := rfl

@[simp] theorem balanceAfterOf_format (tx st : String) (n : Int)
    (rest : List (String × PyValue)) :
    balanceAfterOf (_format_response tx st
      (PyValue.dict (("balance_after", PyValue.int n) :: rest))) = some n := rfl

@[simp] theorem processedAtOf_format (tx st now : String) (n : Int) (m : PyValue) :
    processedAtOf (_format_response tx st
      (PyValue.dict
        [("balance_after", PyValue.int n),
         ("processed_at", PyValue.str now),
         ("meta", m)])) = some now := rfl

@[simp] theorem statusOf_critical (tx : String) :
    statusOf (PyValue.dict
      [("status", PyValue.str "CRITICAL_FAILURE"),
       ("trace", PyValue.str tx)]) = some "CRITICAL_FAILURE" := rfl

/-! ## Helper facts about `execute_secure_transfer` -/

theorem execute_nonneg_aux (s : TransactionOrchestrator) (h : nonneg s._pool)
    (tx now aid : String) (amt : Int) (md : Option (List (String × PyValue))) :
    nonneg (execute_secure_transfer s tx now aid amt md).2._pool := by
  rw [execute_secure_transfer]
  split
  · exact h
  · split
    · exact h
    · rename_i b hp hlt
      intro kv hkv
      rcases mem_pset hkv with h1 | h1
      · rw [h1]
        have hb : 0 ≤ b := h _ (pfind_mem hp)
        omega
      · exact h _ h1

theorem runTransfers_nonneg_aux :
    ∀ (rs : List Request) (s : TransactionOrchestrator),
      nonneg s._pool → nonneg (runTransfers s rs)._pool
  | [], _, h => h
  | r :: rs, s, h =>
      runTransfers_nonneg_aux rs _
        (execute_nonneg_aux s h r.tx_id r.now r.asset_id r.amount r.metadata)

/-! ## Claim theorems -/

/-- C1: for every asset id present in the pool and every amount,
`execute_secure_transfer` commits and debits the asset's balance by exactly
the amount if and only if the current balance is at least the amount;
otherwise it returns status REJECTED (with the insufficient-funds payload)
and the balance of that asset is unchanged. -/
theorem execute_debits_iff_sufficient (s : TransactionOrchestrator)
    (tx now aid : String) (amt : Int) (md : Option (List (String × PyValue)))
    (b : Int) (hb : pfind s._pool aid = some b) :
    ((statusOf (execute_secure_transfer s tx now aid amt md).1 = some "COMMITTED" ∧
      pfind (execute_secure_transfer s tx now aid amt md).2._pool aid = some (b - amt))
      ↔ amt ≤ b)
    ∧ (b < amt →
        statusOf (execute_secure_transfer s tx now aid amt md).1 = some "REJECTED" ∧
        payloadStrOf (execute_secure_transfer s tx now aid amt md).1 = some "자원 부족" ∧
        pfind (execute_secure_transfer s tx now aid amt md).2._pool aid = some b) := by
  rw [execute_secure_transfer]
  split
  · rename_i hp
    rw [hb] at hp
    cases hp
  · rename_i cb hp
    rw [hb] at hp
    injection hp with hcb
    subst hcb
    split
    · rename_i hlt
      constructor
      · constructor
        · rintro ⟨hst, -⟩
          rw [statusOf_format] at hst
          exact absurd hst (by decide)
        · intro hle
          omega
      · intro _
        exact ⟨rfl, rfl, hb⟩
    · rename_i hlt
      constructor
      · constructor
        · intro _
          omega
        · intro _
          exact ⟨rfl, pfind_pset_self _ hb⟩
      · intro hc
        exact absurd hc hlt

/-- Witness for C1 at a concrete input. -/
theorem execute_debits_iff_sufficient_witness :
    pfind [("gold", (100 : Int))] "gold" = some 100 ∧
    (statusOf (execute_secure_transfer ⟨[("gold", 100)], []⟩ "t" "n" "gold" 30 none).1
        = some "COMMITTED" ∧
      pfind (execute_secure_transfer ⟨[("gold", 100)], []⟩ "t" "n" "gold" 30 none).2._pool
        "gold" = some (100 - 30)) :=
  ⟨by decide,
   (execute_debits_iff_sufficient ⟨[("gold", 100)], []⟩ "t" "n" "gold" 30 none 100
      (by decide)).1.mpr (by decide)⟩

/-- C2: starting from a pool whose balances are all non-negative, any single
call to `execute_secure_transfer` and any sequential run of transfers leave
every balance non-negative. -/
theorem transfers_preserve_nonneg (s : TransactionOrchestrator)
    (h : nonneg s._pool) :
    (∀ (tx now aid : String) (amt : Int) (md : Option (List (String × PyValue))),
       nonneg (execute_secure_transfer s tx now aid amt md).2._pool)
    ∧ ∀ rs : List Request, nonneg (runTransfers s rs)._pool :=
  ⟨fun tx now aid amt md => execute_nonneg_aux s h tx now aid amt md,
   fun rs => runTransfers_nonneg_aux rs s h⟩

/-- Witness for C2 at a concrete input. -/
theorem transfers_preserve_nonneg_witness :
    nonneg ([("gold", 10), ("silver", 3)] : List (String × Int)) ∧
    nonneg (runTransfers ⟨[("gold", 10), ("silver", 3)], []⟩
      [⟨"t1", "n1", "gold", 7, none⟩, ⟨"t2", "n2", "gold", 7, none⟩,
       ⟨"t3", "n3", "silver", 3, none⟩])._pool :=
  ⟨by decide,
   (transfers_preserve_nonneg ⟨[("gold", 10), ("silver", 3)], []⟩ (by decide)).2
     [⟨"t1", "n1", "gold", 7, none⟩, ⟨"t2", "n2", "gold", 7, none⟩,
      ⟨"t3", "n3", "silver", 3, none⟩]⟩

/-- Commit-branch behaviour of `execute_secure_transfer`, shared helper. -/
theorem execute_commit_aux (s : TransactionOrchestrator) (tx now aid : String)
    (amt : Int) (md : Option (List (String × PyValue))) (b : Int)
    (hb : pfind s._pool aid = some b) (hle : amt ≤ b) :
    statusOf (execute_secure_transfer s tx now aid amt md).1 = some "COMMITTED" ∧
    balanceAfterOf (execute_secure_transfer s tx now aid amt md).1 = some (b - amt) ∧
    pfind (execute_secure_transfer s tx now aid amt md).2._pool aid = some (b - amt) := by
  rw [execute_secure_transfer]
  split
  · rename_i hp
    rw [hb] at hp
    cases hp
  · rename_i cb hp
    rw [hb] at hp
    injection hp with hcb
    subst hcb
    split
    · rename_i hlt
      omega
    · refine ⟨rfl, ?_, pfind_pset_self _ hb⟩
      rw [balanceAfterOf_format, pfind_pset_self _ hb]
      rfl

/-- C3: Scenario A — asset gold with balance 100, transfer of 30 returns
status COMMITTED, a payload reporting `balance_after = 70` together with the
timestamp, and the pool afterwards holds 70 for gold. -/
theorem scenario_a_committed (tx now : String) :
    statusOf (execute_secure_transfer (TransactionOrchestrator.init [("gold", 100)])
      tx now "gold" 30 none).1 = some "COMMITTED" ∧
    balanceAfterOf (execute_secure_transfer (TransactionOrchestrator.init [("gold", 100)])
      tx now "gold" 30 none).1 = some 70 ∧
    processedAtOf (execute_secure_transfer (TransactionOrchestrator.init [("gold", 100)])
      tx now "gold" 30 none).1 = some now ∧
    pfind (execute_secure_transfer (TransactionOrchestrator.init [("gold", 100)])
      tx now "gold" 30 none).2._pool "gold" = some 70 :=
  ⟨rfl, rfl, rfl, rfl⟩

/-- C4 counterexample: on pool gold 10, a transfer for the unknown asset
ghost returns status CRITICAL_FAILURE, not the claimed FAILED, and the
response carries no payload field at all (the unknown-asset message is only
logged, never returned). -/
theorem unknown_asset_not_failed_cex :
    statusOf (execute_secure_transfer ⟨[("gold", 10)], []⟩ "t" "n" "ghost" 5 none).1
        = some "CRITICAL_FAILURE" ∧
    ¬ statusOf (execute_secure_transfer ⟨[("gold", 10)], []⟩ "t" "n" "ghost" 5 none).1
        = some "FAILED" ∧
    payloadStrOf (execute_secure_transfer ⟨[("gold", 10)], []⟩ "t" "n" "ghost" 5 none).1
        = none ∧
    pfind (execute_secure_transfer ⟨[("gold", 10)], []⟩ "t" "n" "ghost" 5 none).2._pool
        "gold" = some 10 := by
  decide

/-- C4 amended: for every asset id not present in the pool, the raised
KeyError is swallowed by the blanket handler and the call returns the
dictionary with status CRITICAL_FAILURE and only the trace id (no FAILED
status and no unknown-asset reason in the response), while the whole
orchestrator state — in particular every balance — is unchanged. -/
theorem unknown_asset_critical_failure (s : TransactionOrchestrator)
    (tx now aid : String) (amt : Int) (md : Option (List (String × PyValue)))
    (h : pfind s._pool aid = none) :
    (execute_secure_transfer s tx now aid amt md).1 =
      PyValue.dict
        [("status", PyValue.str "CRITICAL_FAILURE"), ("trace", PyValue.str tx)] ∧
    (execute_secure_transfer s tx now aid amt md).2 = s := by
  rw [execute_secure_transfer, h]
  exact ⟨rfl, rfl⟩

/-- Witness for the amended C4 at a concrete input. -/
theorem unknown_asset_critical_failure_witness :
    pfind [("gold", (10 : Int))] "ghost" = none ∧
    (execute_secure_transfer ⟨[("gold", 10)], []⟩ "t" "n" "ghost" 5 none).2 =
      (⟨[("gold", 10)], []⟩ : TransactionOrchestrator) :=
  ⟨by decide,
   (unknown_asset_critical_failure ⟨[("gold", 10)], []⟩ "t" "n" "ghost" 5 none
      (by decide)).2⟩

/-- C5 counterexample: on pool gold 10, a transfer of the non-positive
amount -5 is not rejected at validation: it returns status COMMITTED (not
FAILED) and changes the balance from 10 to 15. -/
theorem nonpositive_amount_not_failed_cex :
    statusOf (execute_secure_transfer ⟨[("gold", 10)], []⟩ "t" "n" "gold" (-5) none).1
        = some "COMMITTED" ∧
    ¬ statusOf (execute_secure_transfer ⟨[("gold", 10)], []⟩ "t" "n" "gold" (-5) none).1
        = some "FAILED" ∧
    pfind (execute_secure_transfer ⟨[("gold", 10)], []⟩ "t" "n" "gold" (-5) none).2._pool
        "gold" = some 15 ∧
    ¬ pfind (execute_secure_transfer ⟨[("gold", 10)], []⟩ "t" "n" "gold" (-5) none).2._pool
        "gold" = some 10 := by
  decide

/-- C5 amended: the code performs no positivity validation on the amount.
For every known asset with non-negative balance and every amount at most 0,
the sufficiency guard passes, the call returns status COMMITTED, and the
balance becomes the old balance minus the non-positive amount — so it never
decreases, and strictly increases for a negative amount. -/
theorem nonpositive_amount_commits (s : TransactionOrchestrator)
    (tx now aid : String) (amt : Int) (md : Option (List (String × PyValue)))
    (b : Int) (hb : pfind s._pool aid = some b) (hamt : amt ≤ 0) (hbn : 0 ≤ b) :
    statusOf (execute_secure_transfer s tx now aid amt md).1 = some "COMMITTED" ∧
    pfind (execute_secure_transfer s tx now aid amt md).2._pool aid = some (b - amt) ∧
    b ≤ b - amt := by
  have h := execute_commit_aux s tx now aid amt md b hb (by omega)
  exact ⟨h.1, h.2.2, by omega⟩

/-- Witness for the amended C5 at a concrete input. -/
theorem nonpositive_amount_commits_witness :
    (pfind [("gold", (10 : Int))] "gold" = some 10 ∧ (-5 : Int) ≤ 0 ∧ (0 : Int) ≤ 10) ∧
    (statusOf (execute_secure_transfer ⟨[("gold", 10)], []⟩ "t" "n" "gold" (-5) none).1
        = some "COMMITTED" ∧
      pfind (execute_secure_transfer ⟨[("gold", 10)], []⟩ "t" "n" "gold" (-5) none).2._pool
        "gold" = some (10 - (-5)) ∧
      (10 : Int) ≤ 10 - (-5)) :=
  ⟨⟨by decide, by decide, by decide⟩,
   nonpositive_amount_commits ⟨[("gold", 10)], []⟩ "t" "n" "gold" (-5) none 10
     (by decide) (by decide) (by decide)⟩

/-- C6 counterexample: submitting the same logical request twice (same asset
gold, amount 30, metadata, and even the same oracle values for the id and
timestamp) against initial balance 100 does not replay the stored result:
the first response reports balance 70, the second reports balance 40, and
the pool ends at 40 — the balance is debited twice, not once. -/
theorem replay_not_idempotent_cex :
    balanceAfterOf (execute_secure_transfer ⟨[("gold", 100)], []⟩
        "t" "n" "gold" 30 none).1 = some 70 ∧
    balanceAfterOf (execute_secure_transfer
        (execute_secure_transfer ⟨[("gold", 100)], []⟩ "t" "n" "gold" 30 none).2
        "t" "n" "gold" 30 none).1 = some 40 ∧
    pfind (execute_secure_transfer
        (execute_secure_transfer ⟨[("gold", 100)], []⟩ "t" "n" "gold" 30 none).2
        "t" "n" "gold" 30 none).2._pool "gold" = some 40 ∧
    ¬ pfind (execute_secure_transfer
        (execute_secure_transfer ⟨[("gold", 100)], []⟩ "t" "n" "gold" 30 none).2
        "t" "n" "gold" 30 none).2._pool "gold" = some 70 := by
  decide

/-- C6 amended: there is no idempotency mechanism. Whenever the balance
covers two debits, submitting the same request twice sequentially commits
both times and debits the balance twice: the second response reports
balance after two debits and the pool ends with the balance debited twice. -/
theorem sequential_replay_debits_twice (s : TransactionOrchestrator)
    (tx1 now1 tx2 now2 aid : String) (amt : Int)
    (md : Option (List (String × PyValue))) (b : Int)
    (hb : pfind s._pool aid = some b) (h1 : amt ≤ b) (h2 : amt ≤ b - amt) :
    statusOf (execute_secure_transfer s tx1 now1 aid amt md).1 = some "COMMITTED" ∧
    statusOf (execute_secure_transfer
        (execute_secure_transfer s tx1 now1 aid amt md).2
        tx2 now2 aid amt md).1 = some "COMMITTED" ∧
    balanceAfterOf (execute_secure_transfer s tx1 now1 aid amt md).1 = some (b - amt) ∧
    balanceAfterOf (execute_secure_transfer
        (execute_secure_transfer s tx1 now1 aid amt md).2
        tx2 now2 aid amt md).1 = some (b - amt - amt) ∧
    pfind (execute_secure_transfer
        (execute_secure_transfer s tx1 now1 aid amt md).2
        tx2 now2 aid amt md).2._pool aid = some (b - amt - amt) := by
  obtain ⟨hs1, hba1, hp1⟩ := execute_commit_aux s tx1 now1 aid amt md b hb h1
  obtain ⟨hs2, hba2, hp2⟩ :=
    execute_commit_aux (execute_secure_transfer s tx1 now1 aid amt md).2
      tx2 now2 aid amt md (b - amt) hp1 h2
  exact ⟨hs1, hs2, hba1, hba2, hp2⟩

/-- Witness for the amended C6 at a concrete input. -/
theorem sequential_replay_debits_twice_witness :
    (pfind [("gold", (100 : Int))] "gold" = some 100 ∧ (30 : Int) ≤ 100 ∧
      (30 : Int) ≤ 100 - 30) ∧
    pfind (execute_secure_transfer
        (execute_secure_transfer ⟨[("gold", 100)], []⟩ "t1" "n1" "gold" 30 none).2
        "t2" "n2" "gold" 30 none).2._pool "gold" = some (100 - 30 - 30) :=
  ⟨⟨by decide, by decide, by decide⟩,
   (sequential_replay_debits_twice ⟨[("gold", 100)], []⟩ "t1" "n1" "t2" "n2" "gold" 30
      none 100 (by decide) (by decide) (by decide)).2.2.2.2⟩

/-- C7 counterexample: a call that returns the terminal status COMMITTED
appends nothing to the orchestrator's history — the history is still empty
after the call. -/
theorem history_never_appended_cex :
    statusOf (execute_secure_transfer (TransactionOrchestrator.init [("gold", 100)])
        "t" "n" "gold" 30 none).1 = some "COMMITTED" ∧
    (execute_secure_transfer (TransactionOrchestrator.init [("gold", 100)])
        "t" "n" "gold" 30 none).2._history = [] :=
  ⟨by decide, rfl⟩

/-- C7 amended: the history list created in the constructor is never written:
every call to `execute_secure_transfer`, whatever result it returns, leaves
the history exactly as it was, so no transaction record is ever appended
before (or after) a terminal result is returned. -/
theorem execute_never_appends_history (s : TransactionOrchestrator)
    (tx now aid : String) (amt : Int) (md : Option (List (String × PyValue))) :
    (execute_secure_transfer s tx now aid amt md).2._history = s._history := by
  rw [execute_secure_transfer]
  split
  · rfl
  · split
    · rfl
    · rfl

/-- C8: frame property — a call to `execute_secure_transfer` on asset
`aid` leaves the balance of every other asset in the pool unchanged: the
operation mutates at most the single pool entry for the requested asset. -/
theorem execute_frame (s : TransactionOrchestrator) (tx now aid : String)
    (amt : Int) (md : Option (List (String × PyValue))) (k : String)
    (hk : k ≠ aid) :
    pfind (execute_secure_transfer s tx now aid amt md).2._pool k = pfind s._pool k := by
  rw [execute_secure_transfer]
  split
  · rfl
  · split
    · rfl
    · exact pfind_pset_ne _ _ hk

/-- Witness for C8 at a concrete input. -/
theorem execute_frame_witness :
    "silver" ≠ "gold" ∧
    pfind (execute_secure_transfer ⟨[("gold", 100), ("silver", 3)], []⟩
        "t" "n" "gold" 30 none).2._pool "silver" =
      pfind [("gold", 100), ("silver", 3)] "silver" :=
  ⟨by decide,
   execute_frame ⟨[("gold", 100), ("silver", 3)], []⟩ "t" "n" "gold" 30 none "silver"
     (by decide)⟩

/-- C9: `execute_secure_transfer` is total — it always returns a response
dictionary, never propagating an exception — and whenever the exception
branch yields a CRITICAL_FAILURE response the orchestrator state (the pool
in particular) is exactly as at call entry, since no pool mutation precedes
the only raising statement. -/
theorem execute_total_and_failure_pure (s : TransactionOrchestrator)
    (tx now aid : String) (amt : Int) (md : Option (List (String × PyValue))) :
    (∃ kvs, (execute_secure_transfer s tx now aid amt md).1 = PyValue.dict kvs) ∧
    (statusOf (execute_secure_transfer s tx now aid amt md).1 = some "CRITICAL_FAILURE" →
      (execute_secure_transfer s tx now aid amt md).2 = s) := by
  rw [execute_secure_transfer]
  split
  · exact ⟨⟨_, rfl⟩, fun _ => rfl⟩
  · split
    · refine ⟨⟨_, rfl⟩, fun hst => ?_⟩
      exact absurd
        (show (some "REJECTED" : Option String) = some "CRITICAL_FAILURE" from hst)
        (by decide)
    · refine ⟨⟨_, rfl⟩, fun hst => ?_⟩
      exact absurd
        (show (some "COMMITTED" : Option String) = some "CRITICAL_FAILURE" from hst)
        (by decide)

/-- Witness for C9 at a concrete input. -/
theorem execute_total_and_failure_pure_witness :
    statusOf (execute_secure_transfer ⟨[("gold", 10)], []⟩ "t" "n" "ghost" 5 none).1
        = some "CRITICAL_FAILURE" ∧
    (execute_secure_transfer ⟨[("gold", 10)], []⟩ "t" "n" "ghost" 5 none).2 =
      (⟨[("gold", 10)], []⟩ : TransactionOrchestrator) :=
  ⟨by decide,
   (execute_total_and_failure_pure ⟨[("gold", 10)], []⟩ "t" "n" "ghost" 5 none).2
     (by decide)⟩

/-- C10: the status field of every response of `execute_secure_transfer`
is exactly one of COMMITTED, REJECTED or CRITICAL_FAILURE; in particular
the public interface never returns a PENDING or FAILED status. -/
theorem execute_status_range (s : TransactionOrchestrator)
    (tx now aid : String) (amt : Int) (md : Option (List (String × PyValue))) :
    (statusOf (execute_secure_transfer s tx now aid amt md).1 = some "COMMITTED" ∨
     statusOf (execute_secure_transfer s tx now aid amt md).1 = some "REJECTED" ∨
     statusOf (execute_secure_transfer s tx now aid amt md).1 = some "CRITICAL_FAILURE") ∧
    ¬ statusOf (execute_secure_transfer s tx now aid amt md).1 = some "PENDING" ∧
    ¬ statusOf (execute_secure_transfer s tx now aid amt md).1 = some "FAILED" := by
  rw [execute_secure_transfer]
  split
  · refine ⟨Or.inr (Or.inr rfl), fun hst => ?_, fun hst => ?_⟩
    · exact absurd
        (show (some "CRITICAL_FAILURE" : Option String) = some "PENDING" from hst)
        (by decide)
    · exact absurd
        (show (some "CRITICAL_FAILURE" : Option String) = some "FAILED" from hst)
        (by decide)
  · split
    · refine ⟨Or.inr (Or.inl rfl), fun hst => ?_, fun hst => ?_⟩
      · exact absurd
          (show (some "REJECTED" : Option String) = some "PENDING" from hst)
          (by decide)
      · exact absurd
          (show (some "REJECTED" : Option String) = some "FAILED" from hst)
          (by decide)
    · refine ⟨Or.inl rfl, fun hst => ?_, fun hst => ?_⟩
      · exact absurd
          (show (some "COMMITTED" : Option String) = some "PENDING" from hst)
          (by decide)
      · exact absurd
          (show (some "COMMITTED" : Option String) = some "FAILED" from hst)
          (by decide)

/-- Witness for C3 at concrete oracle values. -/
theorem scenario_a_committed_witness :
    statusOf (execute_secure_transfer (TransactionOrchestrator.init [("gold", 100)])
        "t" "n" "gold" 30 none).1 = some "COMMITTED" ∧
    balanceAfterOf (execute_secure_transfer (TransactionOrchestrator.init [("gold", 100)])
        "t" "n" "gold" 30 none).1 = some 70 :=
  ⟨(scenario_a_committed "t" "n").1, (scenario_a_committed "t" "n").2.1⟩

/-- Witness for the amended C7 at a concrete input. -/
theorem execute_never_appends_history_witness :
    (execute_secure_transfer ⟨[("gold", 100)], []⟩ "t" "n" "gold" 30 none).2._history =
      (⟨[("gold", 100)], []⟩ : TransactionOrchestrator)._history :=
  execute_never_appends_history ⟨[("gold", 100)], []⟩ "t" "n" "gold" 30 none

/-- Witness for C10 at a concrete input. -/
theorem execute_status_range_witness :
    statusOf (execute_secure_transfer ⟨[("gold", 100)], []⟩ "t" "n" "gold" 30 none).1
        = some "COMMITTED" ∨
    statusOf (execute_secure_transfer ⟨[("gold", 100)], []⟩ "t" "n" "gold" 30 none).1
        = some "REJECTED" ∨
    statusOf (execute_secure_transfer ⟨[("gold", 100)], []⟩ "t" "n" "gold" 30 none).1
        = some "CRITICAL_FAILURE" :=
  (execute_status_range ⟨[("gold", 100)], []⟩ "t" "n" "gold" 30 none).1
